import Mathlib

/-!
Verification of the school-portal student/teacher application.

Shallow embedding of the repository code:
  * `students/models.py`, `teachers/models.py` — the data model (`Student`,
    `Teacher`, the auth `User` table modelled as `Account`);
  * `students/forms.py` — `StudentForm` and `StudentModelForm` with their
    `clean_age` validators;
  * `students/signals.py` — the account-sync hook (`create_user_for_student`
    on post_save, `delete_user_for_student` on post_delete);
  * `students/views.py` — the request handlers (`student_form`, `add_student`,
    `update_student`, `delete_student`, `student_list`, `student_detail`,
    `StudentListView`).

State is passed explicitly as a `DB` value; fallible operations return
`Except`/a result paired with the resulting state.  Framework behaviour that
the source relies on (Django form field cleaning, signal dispatch order, the
unique constraint on `auth_user.username`, `Meta.ordering`) is embedded at the
point of use and documented on each definition.
-/

/-- `teachers/models.py` `Teacher`: name, subject, unique email.  The primary
key `id` is made explicit (Django adds it implicitly). -/
structure Teacher where
  id : Nat
  name : String
  subject : String
  email : String
deriving DecidableEq

/-- `students/models.py` `Student`: name (CharField max 250), age
(PositiveIntegerField, hence `Nat`), grade, a required foreign key to
`Teacher` (`on_delete=CASCADE`), and an optional profile picture
(`null=True, blank=True`), carried as the stored file path. -/
structure Student where
  id : Nat
  name : String
  age : Nat
  grade : String
  teacherId : Nat
  profilePicture : Option String
deriving DecidableEq

/-- A row of Django's `auth_user` table as used by `signals.py`: the
username (unique) and password.  Other `User` columns never matter here. -/
structure Account where
  username : String
  password : String
deriving DecidableEq

/-- The relational store: the three tables, plus the id the next inserted
`Student` row receives (Django's autoincrement primary key). -/
structure DB where
  teachers : List Teacher
  students : List Student
  accounts : List Account
  nextStudentId : Nat
deriving DecidableEq

/-- `inst.name.replace(" ", "").lower()` from `students/signals.py`
(lines 26 and 36): remove every space character, then lowercase. -/
def deriveUsername (name : String) : String :=
  String.mk ((name.toList.filter (fun c => c != ' ')).map Char.toLower)

/-- `User.objects.create_user(username=..., password=...)`: inserts a row
into `auth_user`.  The username column carries a unique constraint, so the
insert raises `IntegrityError` when the username is already taken; that is
the failure mode `signals.py` leaves uncaught. -/
def createUser (username password : String) (accounts : List Account) :
    Except String (List Account) :=
  if accounts.any (fun a => a.username == username) then
    Except.error "UNIQUE constraint failed: auth_user.username"
  else
    Except.ok (accounts ++ [⟨username, password⟩])

/-- `students/signals.py` lines 21–29, the `post_save` receiver
`create_user_for_student`: only when `created` is true, create a `User`
whose username is derived from the student's name and whose password is the
literal `'defaultpassword123'`. -/
def create_user_for_student (created : Bool) (inst : Student)
    (accounts : List Account) : Except String (List Account) :=
  if created then
    createUser (deriveUsername inst.name) "defaultpassword123" accounts
  else
    Except.ok accounts

/-- `students/signals.py` lines 32–40, the `post_delete` receiver
`delete_user_for_student`: look up the `User` with the derived username and
delete it; `User.DoesNotExist` is caught, so a missing account leaves the
table unchanged and raises nothing — the result type carries no error
component. -/
def delete_user_for_student (inst : Student) (accounts : List Account) :
    List Account :=
  match accounts.find? (fun a => a.username == deriveUsername inst.name) with
  | some _ => accounts.filter (fun a => a.username != deriveUsername inst.name)
  | none => accounts

/-- Cleaning of a required Django `CharField` with a `max_length`: empty
input fails as required, overlong input fails the length validator. -/
def cleanCharField (value : String) (maxLength : Nat) : Except String String :=
  if value = "" then Except.error "This field is required."
  else if maxLength < value.length then
    Except.error "Ensure this value has at most the maximum number of characters."
  else Except.ok value

namespace StudentForm

/-- `students/forms.py` lines 14–19, `StudentForm.clean_age`: reject any
age below 18 with the exact message `"Age must be at least 18."`. -/
def clean_age (age : Int) : Except String Int :=
  if age < 18 then Except.error "Age must be at least 18." else Except.ok age

end StudentForm

namespace StudentModelForm

/-- `students/forms.py` lines 27–32, `StudentModelForm.clean_age`:
textually the same rule as `StudentForm.clean_age`. -/
def clean_age (age : Int) : Except String Int :=
  if age < 18 then Except.error "Age must be at least 18." else Except.ok age

end StudentModelForm

/-- The error list a field contributes to `form.errors`, tagged with the
field name. -/
def errOf (field : String) : Except String α → List (String × String)
  | Except.error m => [(field, m)]
  | Except.ok _ => []

/-- The raw submission bound to the plain `StudentForm`: all four declared
fields, the age already parsed to an integer (`forms.IntegerField`). -/
structure PlainInput where
  name : String
  age : Int
  grade : String
  teacher : String
deriving DecidableEq

namespace StudentForm

/-- `form.errors` of a bound `StudentForm` (`forms.py` lines 8–19): the
four declared fields cleaned in declaration order — `name` CharField
max_length 100, `age` IntegerField followed by `clean_age`, `grade`
CharField max_length 10, `teacher` CharField max_length 100. -/
def errors (i : PlainInput) : List (String × String) :=
  errOf "name" (cleanCharField i.name 100) ++
  errOf "age" (clean_age i.age) ++
  errOf "grade" (cleanCharField i.grade 10) ++
  errOf "teacher" (cleanCharField i.teacher 100)

/-- `form.is_valid()`: no field produced an error. -/
def is_valid (i : PlainInput) : Bool := (errors i).isEmpty

end StudentForm

/-- The raw submission bound to `StudentModelForm`: the five fields listed
in its `Meta.fields`; `teacher` is the chosen `Teacher` primary key
(a `ModelChoiceField`), `profile_picture` is optional. -/
structure ModelInput where
  name : String
  age : Int
  grade : String
  teacher : Nat
  profilePicture : Option String
deriving DecidableEq

namespace StudentModelForm

/-- The cleaning chain of the model form's `age` field.  Django generates
the form field for the model's `PositiveIntegerField` (`models.py` line 8)
as an `IntegerField` with `min_value=0`; that validator runs during field
cleaning, *before* the form's `clean_age` hook, and when it fails the
field never reaches `cleaned_data`, so `clean_age` is skipped.  Only a
non-negative age reaches `clean_age`. -/
def cleanAgeField (age : Int) : Except String Int :=
  if age < 0 then
    Except.error "Ensure this value is greater than or equal to 0."
  else clean_age age

/-- `form.errors` of a bound `StudentModelForm` (`forms.py` lines 22–32):
fields generated from the `Student` model — `name` max_length 250, `age`
(the generated `min_value=0` validator, then `clean_age`), `grade`
max_length 10, `teacher` a choice that must reference an existing
`Teacher` row; `profile_picture` is `blank=True` and contributes no
error. -/
def errors (i : ModelInput) (teachers : List Teacher) : List (String × String) :=
  errOf "name" (cleanCharField i.name 250) ++
  errOf "age" (cleanAgeField i.age) ++
  errOf "grade" (cleanCharField i.grade 10) ++
  errOf "teacher"
    (if teachers.any (fun t => t.id == i.teacher) then Except.ok ""
     else Except.error "Select a valid choice.")

/-- `form.is_valid()` for the model form. -/
def is_valid (i : ModelInput) (teachers : List Teacher) : Bool :=
  (errors i teachers).isEmpty

end StudentModelForm

/-- `Student.Meta.ordering = ['name']` (`students/models.py` lines 18–20):
every queryset over `Student` — `Student.objects.all()` in `student_list`
and the `StudentListView` queryset alike — is returned sorted by `name`
ascending. -/
def listStudents (db : DB) : List Student :=
  db.students.insertionSort (fun a b => a.name ≤ b.name)

/-- `form.save()` on an unbound-instance `StudentModelForm`: the `Student`
row the insert produces, with the autoincrement primary key. -/
def newStudentOf (i : ModelInput) (db : DB) : Student :=
  ⟨db.nextStudentId, i.name, i.age.toNat, i.grade, i.teacher, i.profilePicture⟩

/-- `form.save()` creating a new `Student`: the INSERT commits first, then
the `post_save` signal runs synchronously with `created=True`
(`create_user_for_student`).  An `IntegrityError` raised by the signal
propagates to the caller, but the already-committed `Student` row stays —
the pair returns the resulting store together with the uncaught error, if
any (the non-atomicity the spec documents in §7). -/
def saveNewStudent (s : Student) (db : DB) : DB × Option String :=
  let db1 : DB :=
    ⟨db.teachers, db.students ++ [s], db.accounts, db.nextStudentId + 1⟩
  match create_user_for_student true s db1.accounts with
  | Except.ok accs => (⟨db1.teachers, db1.students, accs, db1.nextStudentId⟩, none)
  | Except.error e => (db1, some e)

/-- `student.delete()`: the row is removed, then the `post_delete` signal
runs (`delete_user_for_student`), which never raises. -/
def deleteStudentRecord (s : Student) (db : DB) : DB :=
  ⟨db.teachers, db.students.filter (fun t => t.id != s.id),
   delete_user_for_student s db.accounts, db.nextStudentId⟩

/-- `teacher.delete()` with `on_delete=CASCADE` on `Student.teacher`
(`students/models.py` line 10): deleting a `Teacher` deletes every
`Student` referencing it, and Django fires `post_delete` for each cascaded
`Student`, so their derived accounts are removed as well. -/
def deleteTeacherRecord (t : Teacher) (db : DB) : DB :=
  ⟨db.teachers.filter (fun u => u.id != t.id),
   db.students.filter (fun s => s.teacherId != t.id),
   (db.students.filter (fun s => s.teacherId == t.id)).foldl
     (fun accs s => delete_user_for_student s accs) db.accounts,
   db.nextStudentId⟩

/-- What the `student_form` view can produce on a POST. -/
inductive FormResponse where
  | successPage (name : String)
  | formPage (errors : List (String × String))
  | attributeError (msg : String)
deriving DecidableEq

/-- `students/views.py` lines 58–71, `student_form` on POST: bind
`StudentForm` to the data; when invalid, re-render `student_form.html` with
the bound form's errors; when valid, read `cleaned_data` and call
`form.save()` — but `StudentForm` subclasses the plain `django.forms.Form`,
which defines no `save` method, so the call raises `AttributeError` before
`success.html` is ever rendered, and no data is written. -/
def student_form_post (i : PlainInput) (db : DB) : FormResponse × DB :=
  if (StudentForm.errors i).isEmpty then
    (FormResponse.attributeError "StudentForm object has no attribute save", db)
  else
    (FormResponse.formPage (StudentForm.errors i), db)

/-- What the model-form views (`add_student`, `update_student`,
`delete_student`) can produce on a POST. -/
inductive AddResponse where
  | redirect (target : String)
  | formPage (errors : List (String × String))
  | serverError (msg : String)
  | notFound
deriving DecidableEq

/-- `students/views.py` lines 75–83, `add_student` on POST: bind
`StudentModelForm`; when valid, `form.save()` inserts the row (firing the
account-sync hook) and the view redirects to `student_list`; an uncaught
signal error aborts the response after the row is committed; when invalid,
re-render `add_student.html` with the errors. -/
def add_student_post (i : ModelInput) (db : DB) : AddResponse × DB :=
  if (StudentModelForm.errors i db.teachers).isEmpty then
    match saveNewStudent (newStudentOf i db) db with
    | (db1, none) => (AddResponse.redirect "student_list", db1)
    | (db1, some e) => (AddResponse.serverError e, db1)
  else
    (AddResponse.formPage (StudentModelForm.errors i db.teachers), db)

/-- The field overwrite `form.save()` performs on an existing instance in
`update_student`: every bound field is written onto the row, the primary
key stays; the view passes no `request.FILES`, so the optional
`profile_picture` keeps its stored value. -/
def applyUpdate (s : Student) (i : ModelInput) : Student :=
  ⟨s.id, i.name, i.age.toNat, i.grade, i.teacher, s.profilePicture⟩

/-- `students/views.py` lines 86–95, `update_student` on POST:
`get_object_or_404` the row; bind `StudentModelForm` with `instance=student`;
when valid, `form.save()` overwrites the row in place and fires `post_save`
with `created=False` (so `create_user_for_student` does nothing), then
redirect to `student_list`; when invalid, re-render with errors. -/
def update_student_post (id : Nat) (i : ModelInput) (db : DB) :
    AddResponse × DB :=
  match db.students.find? (fun s => s.id == id) with
  | none => (AddResponse.notFound, db)
  | some s =>
    if (StudentModelForm.errors i db.teachers).isEmpty then
      let db1 : DB :=
        ⟨db.teachers,
         db.students.map (fun t => if t.id == id then applyUpdate s i else t),
         db.accounts, db.nextStudentId⟩
      match create_user_for_student false (applyUpdate s i) db1.accounts with
      | Except.ok accs =>
        (AddResponse.redirect "student_list",
         ⟨db1.teachers, db1.students, accs, db1.nextStudentId⟩)
      | Except.error e => (AddResponse.serverError e, db1)
    else
      (AddResponse.formPage (StudentModelForm.errors i db.teachers), db)

/-- `students/views.py` lines 99–104, `delete_student` on POST:
`get_object_or_404` the row, then `student.delete()` and redirect. -/
def delete_student_post (id : Nat) (db : DB) : AddResponse × DB :=
  match db.students.find? (fun s => s.id == id) with
  | none => (AddResponse.notFound, db)
  | some s => (AddResponse.redirect "student_list", deleteStudentRecord s db)

/-- What a GET of a list endpoint can produce. -/
inductive ListResponse where
  | renderList (students : List Student)
  | redirect (target : String)
deriving DecidableEq

/-- `students/views.py` lines 26–29, `student_list`, guarded by
`@login_required(login_url='login')`: an unauthenticated request is
redirected to the `login` route; an authenticated one renders
`student_list.html` over `Student.objects.all()` (default name order). -/
def student_list_view (authenticated : Bool) (db : DB) : ListResponse :=
  if authenticated then ListResponse.renderList (listStudents db)
  else ListResponse.redirect "login"

/-- `students/views.py` lines 47–50, the class-based `StudentListView`
(`ListView` over `Student`, routed at `/students/` by `urls.py` line 17):
no `LoginRequiredMixin`, no decorator — the handler never consults the
session, so its output is the full (name-ordered) student list for every
requester.  The `authenticated` argument is taken only to state that the
response does not depend on it. -/
def studentListView_get (_authenticated : Bool) (db : DB) : ListResponse :=
  ListResponse.renderList (listStudents db)

/-- What a GET of the detail endpoint can produce. -/
inductive DetailResponse where
  | renderStudent (s : Student)
  | notFound
deriving DecidableEq

/-- `students/views.py` lines 32–34, `student_detail`: no access control;
`get_object_or_404` by primary key, rendering the row or a 404.  The
`authenticated` argument is taken only to state that it is ignored. -/
def student_detail_view (_authenticated : Bool) (student_id : Nat) (db : DB) :
    DetailResponse :=
  match db.students.find? (fun s => s.id == student_id) with
  | some s => DetailResponse.renderStudent s
  | none => DetailResponse.notFound

/-! ### Helper lemmas -/

/-- A list with a member is not empty. -/
theorem isEmpty_false_of_mem {α : Type} {x : α} {l : List α} (h : x ∈ l) :
    l.isEmpty = false :=
  List.isEmpty_eq_false.mpr (List.ne_nil_of_mem h)

/-- No account carries username `u`, so the uniqueness scan fails. -/
theorem username_any_false (accs : List Account) (u : String)
    (h : ∀ a ∈ accs, a.username ≠ u) :
    accs.any (fun a => a.username == u) = false := by
  simp only [List.any_eq_false]
  intro a ha
  simpa using h a ha

/-- No account carries username `u`, so the lookup returns nothing. -/
theorem username_find?_none (accs : List Account) (u : String)
    (h : ∀ a ∈ accs, a.username ≠ u) :
    accs.find? (fun a => a.username == u) = none := by
  refine List.find?_eq_none.mpr ?_
  intro a ha
  simpa using h a ha

/-- No account carries username `u`, so filtering `u` away keeps every row. -/
theorem username_filter_self (accs : List Account) (u : String)
    (h : ∀ a ∈ accs, a.username ≠ u) :
    accs.filter (fun a => a.username != u) = accs := by
  refine List.filter_eq_self.mpr ?_
  intro a ha
  simpa using h a ha

/-- The name-ordering relation used by `Student.Meta.ordering` is total. -/
instance : IsTotal Student (fun a b : Student => a.name ≤ b.name) :=
  ⟨fun a b => le_total a.name b.name⟩

/-- The name-ordering relation used by `Student.Meta.ordering` is transitive. -/
instance : IsTrans Student (fun a b : Student => a.name ≤ b.name) :=
  ⟨fun _ _ _ h1 h2 => le_trans h1 h2⟩

/-- Primary-key lookup in a table extended with a fresh row finds the row. -/
theorem find?_id_append (l : List Student) (s : Student)
    (h : ∀ t ∈ l, t.id ≠ s.id) :
    (l ++ [s]).find? (fun t => t.id == s.id) = some s := by
  rw [List.find?_append, List.find?_eq_none.mpr (fun t ht => by simpa using h t ht)]
  simp [List.find?]

/-! ### Claims -/

/-- Shared concrete sample data for witnesses: one teacher, empty tables. -/
def wTeacher : Teacher := ⟨1, "Mr Smith", "Math", "smith@example.com"⟩

/-- Shared concrete sample store for witnesses. -/
def wDB : DB := ⟨[wTeacher], [], [], 1⟩

/-- C1, refuted as stated: at submitted age −5 the two entry paths do not
reject identically and the model path does not carry the claimed message —
the plain `StudentForm` reports `"Age must be at least 18."`, but
`StudentModelForm`'s generated `min_value=0` field validator fails first
with `"Ensure this value is greater than or equal to 0."` and `clean_age`
is never run, so the model form's error list lacks the age-18 message. -/
theorem C1_age_below_18_counterexample :
    ((-5 : Int) < 18) ∧
    ("age", "Age must be at least 18.") ∈
      StudentForm.errors (PlainInput.mk "Bob" (-5) "A" "Mr Smith") ∧
    ("age", "Age must be at least 18.") ∉
      StudentModelForm.errors (ModelInput.mk "Bob" (-5) "A" 1 none) wDB.teachers ∧
    ("age", "Ensure this value is greater than or equal to 0.") ∈
      StudentModelForm.errors (ModelInput.mk "Bob" (-5) "A" 1 none) wDB.teachers ∧
    StudentForm.clean_age (-5) = Except.error "Age must be at least 18." ∧
    StudentModelForm.cleanAgeField (-5) =
      Except.error "Ensure this value is greater than or equal to 0." :=
  ⟨by decide, by decide, by decide, by decide, rfl, rfl⟩

/-- C1 (amended: restricted to non-negative submitted ages, as the
counterexample forces): for every submitted age `0 ≤ a < 18`, student
validation fails with the field error `"Age must be at least 18."` and no
`Student` record is written, identically on both entry paths:
`StudentForm.clean_age` and `StudentModelForm.clean_age` reject with the
same message (indeed the two validators are the same function), both bound
forms carry the age error, and both POST handlers re-render the form
leaving the store untouched.  (For `a < 0` both paths still reject and
write nothing, but the model form reports the `min_value=0` message and
skips `clean_age`.) -/
theorem C1_age_below_18_rejected_amended (a : Int) (i : PlainInput)
    (j : ModelInput) (db : DB) (ha : a < 18) (h0 : 0 ≤ a)
    (hi : i.age = a) (hj : j.age = a) :
    StudentForm.clean_age a = Except.error "Age must be at least 18." ∧
    StudentModelForm.clean_age a = Except.error "Age must be at least 18." ∧
    StudentForm.clean_age = StudentModelForm.clean_age ∧
    ("age", "Age must be at least 18.") ∈ StudentForm.errors i ∧
    ("age", "Age must be at least 18.") ∈ StudentModelForm.errors j db.teachers ∧
    (∃ es, (student_form_post i db).1 = FormResponse.formPage es) ∧
    (student_form_post i db).2 = db ∧
    (∃ es, (add_student_post j db).1 = AddResponse.formPage es) ∧
    (add_student_post j db).2 = db := by
  have hn : ¬ a < 0 := not_lt.mpr h0
  have h1 : StudentForm.clean_age a = Except.error "Age must be at least 18." := by
    simp [StudentForm.clean_age, ha]
  have h2 : StudentModelForm.clean_age a = Except.error "Age must be at least 18." := by
    simp [StudentModelForm.clean_age, ha]
  have h2f : StudentModelForm.cleanAgeField a =
      Except.error "Age must be at least 18." := by
    simp [StudentModelForm.cleanAgeField, hn, h2]
  have hm1 : ("age", "Age must be at least 18.") ∈ StudentForm.errors i := by
    simp [StudentForm.errors, hi, h1, errOf]
  have hm2 : ("age", "Age must be at least 18.") ∈
      StudentModelForm.errors j db.teachers := by
    simp [StudentModelForm.errors, hj, h2f, errOf]
  have hne1 : (StudentForm.errors i).isEmpty = false := isEmpty_false_of_mem hm1
  have hne2 : (StudentModelForm.errors j db.teachers).isEmpty = false :=
    isEmpty_false_of_mem hm2
  refine ⟨h1, h2, rfl, hm1, hm2, ⟨StudentForm.errors i, ?_⟩, ?_,
    ⟨StudentModelForm.errors j db.teachers, ?_⟩, ?_⟩ <;>
    simp [student_form_post, add_student_post, hne1, hne2]

/-- Witness for the amended C1 at age 17. -/
theorem C1_age_below_18_rejected_amended_witness :
    ((17 : Int) < 18) ∧
    ((0 : Int) ≤ 17) ∧
    (PlainInput.mk "Bob" 17 "A" "Mr Smith").age = 17 ∧
    (ModelInput.mk "Bob" 17 "A" 1 none).age = 17 ∧
    (StudentForm.clean_age 17 = Except.error "Age must be at least 18." ∧
     StudentModelForm.clean_age 17 = Except.error "Age must be at least 18." ∧
     StudentForm.clean_age = StudentModelForm.clean_age ∧
     ("age", "Age must be at least 18.") ∈
       StudentForm.errors (PlainInput.mk "Bob" 17 "A" "Mr Smith") ∧
     ("age", "Age must be at least 18.") ∈
       StudentModelForm.errors (ModelInput.mk "Bob" 17 "A" 1 none) wDB.teachers ∧
     (∃ es, (student_form_post (PlainInput.mk "Bob" 17 "A" "Mr Smith") wDB).1 =
        FormResponse.formPage es) ∧
     (student_form_post (PlainInput.mk "Bob" 17 "A" "Mr Smith") wDB).2 = wDB ∧
     (∃ es, (add_student_post (ModelInput.mk "Bob" 17 "A" 1 none) wDB).1 =
        AddResponse.formPage es) ∧
     (add_student_post (ModelInput.mk "Bob" 17 "A" 1 none) wDB).2 = wDB) :=
  ⟨by decide, by decide, rfl, rfl,
   C1_age_below_18_rejected_amended 17 (PlainInput.mk "Bob" 17 "A" "Mr Smith")
     (ModelInput.mk "Bob" 17 "A" 1 none) wDB (by decide) (by decide) rfl rfl⟩

/-- C2: on every `Student` creation event (with the derived username not
yet taken, creation otherwise failing as claim C3 records), the hook adds
exactly one `Account` whose username is the student's name with spaces
removed and lowercased and whose password is the fixed default
`"defaultpassword123"`; `"Ann Lee"` derives `"annlee"`; and on the deletion
event the hook removes exactly the account with that derived username. -/
theorem C2_account_sync_create_delete (s : Student) (accounts : List Account)
    (hfresh : ∀ a ∈ accounts, a.username ≠ deriveUsername s.name) :
    create_user_for_student true s accounts =
      Except.ok (accounts ++ [⟨deriveUsername s.name, "defaultpassword123"⟩]) ∧
    deriveUsername "Ann Lee" = "annlee" ∧
    delete_user_for_student s
      (accounts ++ [⟨deriveUsername s.name, "defaultpassword123"⟩]) = accounts := by
  refine ⟨?_, by decide, ?_⟩
  · simp [create_user_for_student, createUser,
      username_any_false accounts _ hfresh]
  · unfold delete_user_for_student
    rw [List.find?_append, username_find?_none accounts _ hfresh]
    simp [List.filter_append, username_filter_self accounts _ hfresh]

/-- Shared concrete sample student for witnesses. -/
def wAnn : Student := ⟨1, "Ann Lee", 20, "A", 1, none⟩

/-- Witness for C2 on the student "Ann Lee" against an empty account table. -/
theorem C2_account_sync_create_delete_witness :
    (∀ a ∈ ([] : List Account), a.username ≠ deriveUsername wAnn.name) ∧
    (create_user_for_student true wAnn [] =
      Except.ok ([] ++ [⟨deriveUsername wAnn.name, "defaultpassword123"⟩]) ∧
     deriveUsername "Ann Lee" = "annlee" ∧
     delete_user_for_student wAnn
       ([] ++ [⟨deriveUsername wAnn.name, "defaultpassword123"⟩]) = []) :=
  ⟨by decide, C2_account_sync_create_delete wAnn [] (by decide)⟩

/-- C3: when two students whose names derive the same username are created
in turn (second submission still passing validation), the first creation
succeeds, the second aborts at the account-sync step with the uncaught
uniqueness error, yet the second `Student` row remains persisted while no
second account was created — creation is not atomic and is not rolled
back. -/
theorem C3_duplicate_username_not_atomic (db : DB) (j1 j2 : ModelInput)
    (hv1 : (StudentModelForm.errors j1 db.teachers).isEmpty = true)
    (hv2 : (StudentModelForm.errors j2
      ((add_student_post j1 db).2).teachers).isEmpty = true)
    (hname : deriveUsername j2.name = deriveUsername j1.name)
    (hfresh : ∀ a ∈ db.accounts, a.username ≠ deriveUsername j1.name) :
    (add_student_post j1 db).1 = AddResponse.redirect "student_list" ∧
    (add_student_post j2 (add_student_post j1 db).2).1 =
      AddResponse.serverError "UNIQUE constraint failed: auth_user.username" ∧
    newStudentOf j2 (add_student_post j1 db).2 ∈
      ((add_student_post j2 (add_student_post j1 db).2).2).students ∧
    ((add_student_post j2 (add_student_post j1 db).2).2).accounts =
      ((add_student_post j1 db).2).accounts := by
  have e1 : add_student_post j1 db =
      (AddResponse.redirect "student_list",
       ⟨db.teachers, db.students ++ [newStudentOf j1 db],
        db.accounts ++ [⟨deriveUsername j1.name, "defaultpassword123"⟩],
        db.nextStudentId + 1⟩) := by
    simp [add_student_post, hv1, saveNewStudent, create_user_for_student,
      createUser, username_any_false _ _ hfresh, newStudentOf]
  rw [e1] at hv2 ⊢
  simp only at hv2 ⊢
  simp [add_student_post, hv2, saveNewStudent, create_user_for_student,
    createUser, newStudentOf, hname, List.any_append]

/-- Shared concrete colliding submissions for witnesses. -/
def wIn1 : ModelInput := ⟨"Ann Lee", 20, "A", 1, none⟩

/-- Shared concrete colliding submissions for witnesses (second entry). -/
def wIn2 : ModelInput := ⟨"ann lee", 21, "B", 1, none⟩

/-- Witness for C3: "Ann Lee" then "ann lee" against the one-teacher store. -/
theorem C3_duplicate_username_not_atomic_witness :
    ((StudentModelForm.errors wIn1 wDB.teachers).isEmpty = true) ∧
    ((StudentModelForm.errors wIn2
       ((add_student_post wIn1 wDB).2).teachers).isEmpty = true) ∧
    (deriveUsername wIn2.name = deriveUsername wIn1.name) ∧
    (∀ a ∈ wDB.accounts, a.username ≠ deriveUsername wIn1.name) ∧
    ((add_student_post wIn1 wDB).1 = AddResponse.redirect "student_list" ∧
     (add_student_post wIn2 (add_student_post wIn1 wDB).2).1 =
       AddResponse.serverError "UNIQUE constraint failed: auth_user.username" ∧
     newStudentOf wIn2 (add_student_post wIn1 wDB).2 ∈
       ((add_student_post wIn2 (add_student_post wIn1 wDB).2).2).students ∧
     ((add_student_post wIn2 (add_student_post wIn1 wDB).2).2).accounts =
       ((add_student_post wIn1 wDB).2).accounts) :=
  ⟨by decide, by decide, by decide, by decide,
   C3_duplicate_username_not_atomic wDB wIn1 wIn2
     (by decide) (by decide) (by decide) (by decide)⟩

/-- C4: on a `Student` deletion event with no account under the derived
username, the account-sync hook raises nothing (its embedding is total —
`DoesNotExist` is caught) and leaves the account table untouched; the
deletion itself completes, removing the student's row; and running the
deletion again over the resulting store still leaves the accounts as they
were. -/
theorem C4_delete_missing_account_tolerated (s : Student) (db : DB)
    (hmissing : ∀ a ∈ db.accounts, a.username ≠ deriveUsername s.name) :
    delete_user_for_student s db.accounts = db.accounts ∧
    (deleteStudentRecord s db).accounts = db.accounts ∧
    (∀ t ∈ (deleteStudentRecord s db).students, t.id ≠ s.id) ∧
    (deleteStudentRecord s (deleteStudentRecord s db)).accounts = db.accounts := by
  have hd : delete_user_for_student s db.accounts = db.accounts := by
    unfold delete_user_for_student
    rw [username_find?_none _ _ hmissing]
  refine ⟨hd, by simp [deleteStudentRecord, hd], ?_, by simp [deleteStudentRecord, hd]⟩
  intro t ht
  simp [deleteStudentRecord, List.mem_filter] at ht
  exact ht.2

/-- Witness for C4: deleting "Ann Lee" against the empty account table. -/
theorem C4_delete_missing_account_tolerated_witness :
    (∀ a ∈ wDB.accounts, a.username ≠ deriveUsername wAnn.name) ∧
    (delete_user_for_student wAnn wDB.accounts = wDB.accounts ∧
     (deleteStudentRecord wAnn wDB).accounts = wDB.accounts ∧
     (∀ t ∈ (deleteStudentRecord wAnn wDB).students, t.id ≠ wAnn.id) ∧
     (deleteStudentRecord wAnn (deleteStudentRecord wAnn wDB)).accounts =
       wDB.accounts) :=
  ⟨by decide, C4_delete_missing_account_tolerated wAnn wDB (by decide)⟩

/-- C5 (recording the divergence): on every valid submission to
`/student_form/` the handler does not complete normally — `StudentForm` is
a plain `django.forms.Form` with no `save` method, so `form.save()` raises
`AttributeError`; the success page is never rendered and nothing is
written to the store. -/
theorem C5_student_form_save_raises (i : PlainInput) (db : DB)
    (hv : StudentForm.is_valid i = true) :
    (student_form_post i db).1 =
      FormResponse.attributeError "StudentForm object has no attribute save" ∧
    (∀ n, (student_form_post i db).1 ≠ FormResponse.successPage n) ∧
    (student_form_post i db).2 = db := by
  have hv' : (StudentForm.errors i).isEmpty = true := hv
  refine ⟨by simp [student_form_post, hv'], ?_, by simp [student_form_post, hv']⟩
  intro n
  simp [student_form_post, hv']

/-- Witness for C5 at a fully valid submission. -/
theorem C5_student_form_save_raises_witness :
    StudentForm.is_valid (PlainInput.mk "Ann Lee" 20 "A" "Mr Smith") = true ∧
    ((student_form_post (PlainInput.mk "Ann Lee" 20 "A" "Mr Smith") wDB).1 =
       FormResponse.attributeError "StudentForm object has no attribute save" ∧
     (∀ n, (student_form_post (PlainInput.mk "Ann Lee" 20 "A" "Mr Smith") wDB).1 ≠
       FormResponse.successPage n) ∧
     (student_form_post (PlainInput.mk "Ann Lee" 20 "A" "Mr Smith") wDB).2 = wDB) :=
  ⟨by decide,
   C5_student_form_save_raises (PlainInput.mk "Ann Lee" 20 "A" "Mr Smith") wDB
     (by decide)⟩

/-- C6: a successful update overwrites the student's fields in place
(primary key kept, every other row untouched) and fires no account-sync
hook: the account table after the update equals the one before, and the
`post_save` receiver with `created = False` is the identity on accounts. -/
theorem C6_update_leaves_accounts_unchanged (id : Nat) (i : ModelInput)
    (db : DB) (s : Student)
    (hfound : db.students.find? (fun t => t.id == id) = some s)
    (hv : (StudentModelForm.errors i db.teachers).isEmpty = true) :
    (update_student_post id i db).1 = AddResponse.redirect "student_list" ∧
    ((update_student_post id i db).2).accounts = db.accounts ∧
    ((update_student_post id i db).2).students =
      db.students.map (fun t => if t.id == id then applyUpdate s i else t) ∧
    ((update_student_post id i db).2).teachers = db.teachers ∧
    create_user_for_student false (applyUpdate s i) db.accounts =
      Except.ok db.accounts := by
  simp [update_student_post, hfound, hv, create_user_for_student]

/-- Shared concrete sample store holding "Ann Lee" and her account. -/
def wDB2 : DB := ⟨[wTeacher], [wAnn], [⟨"annlee", "defaultpassword123"⟩], 2⟩

/-- Witness for C6: renaming "Ann Lee" to "ann lee" in place. -/
theorem C6_update_leaves_accounts_unchanged_witness :
    wDB2.students.find? (fun t => t.id == 1) = some wAnn ∧
    (StudentModelForm.errors wIn2 wDB2.teachers).isEmpty = true ∧
    ((update_student_post 1 wIn2 wDB2).1 = AddResponse.redirect "student_list" ∧
     ((update_student_post 1 wIn2 wDB2).2).accounts = wDB2.accounts ∧
     ((update_student_post 1 wIn2 wDB2).2).students =
       wDB2.students.map (fun t => if t.id == 1 then applyUpdate wAnn wIn2 else t) ∧
     ((update_student_post 1 wIn2 wDB2).2).teachers = wDB2.teachers ∧
     create_user_for_student false (applyUpdate wAnn wIn2) wDB2.accounts =
       Except.ok wDB2.accounts) :=
  ⟨by decide, by decide,
   C6_update_leaves_accounts_unchanged 1 wIn2 wDB2 wAnn (by decide) (by decide)⟩

/-- C7: deleting a `Teacher` cascades: afterwards no `Student` referencing
it remains, every `Student` not referencing it survives, and the teacher's
own row is gone — the surviving students are exactly the non-referencing
ones. -/
theorem C7_teacher_delete_cascades (t : Teacher) (db : DB) :
    (deleteTeacherRecord t db).students =
      db.students.filter (fun s => s.teacherId != t.id) ∧
    (∀ s ∈ (deleteTeacherRecord t db).students, s.teacherId ≠ t.id) ∧
    (∀ s ∈ db.students, s.teacherId ≠ t.id →
      s ∈ (deleteTeacherRecord t db).students) ∧
    (∀ u ∈ (deleteTeacherRecord t db).teachers, u.id ≠ t.id) := by
  refine ⟨rfl, ?_, ?_, ?_⟩
  · intro s hs
    simp [deleteTeacherRecord, List.mem_filter] at hs
    exact hs.2
  · intro s hs hne
    simp [deleteTeacherRecord, List.mem_filter]
    exact ⟨hs, hne⟩
  · intro u hu
    simp [deleteTeacherRecord, List.mem_filter] at hu
    exact hu.2

/-- C8: a submission with age ≥ 18 and otherwise-valid fields (validation
passes; store ids fresh, derived username untaken) creates the student:
the view redirects to the list, the row is appended, the detail view
retrieves it by its new primary key, and the list view returns all
students — the new one among them — sorted by name ascending. -/
theorem C8_valid_creation_listed_in_order (i : ModelInput) (db : DB)
    (_hage : (18 : Int) ≤ i.age)
    (hv : (StudentModelForm.errors i db.teachers).isEmpty = true)
    (hids : ∀ t ∈ db.students, t.id ≠ db.nextStudentId)
    (hfresh : ∀ a ∈ db.accounts, a.username ≠ deriveUsername i.name) :
    (add_student_post i db).1 = AddResponse.redirect "student_list" ∧
    ((add_student_post i db).2).students = db.students ++ [newStudentOf i db] ∧
    student_detail_view false (newStudentOf i db).id (add_student_post i db).2 =
      DetailResponse.renderStudent (newStudentOf i db) ∧
    newStudentOf i db ∈ listStudents (add_student_post i db).2 ∧
    List.Sorted (fun a b : Student => a.name ≤ b.name)
      (listStudents (add_student_post i db).2) ∧
    (listStudents (add_student_post i db).2).Perm
      ((add_student_post i db).2).students := by
  have hcu : createUser (deriveUsername i.name) "defaultpassword123" db.accounts =
      Except.ok (db.accounts ++
        [⟨deriveUsername i.name, "defaultpassword123"⟩]) := by
    unfold createUser
    rw [username_any_false _ _ hfresh]
    simp
  have e1 : add_student_post i db =
      (AddResponse.redirect "student_list",
       ⟨db.teachers, db.students ++ [newStudentOf i db],
        db.accounts ++ [⟨deriveUsername i.name, "defaultpassword123"⟩],
        db.nextStudentId + 1⟩) := by
    simp [add_student_post, hv, saveNewStudent, create_user_for_student,
      newStudentOf, hcu]
  have hids' : ∀ t ∈ db.students, t.id ≠ (newStudentOf i db).id := by
    simpa [newStudentOf] using hids
  rw [e1]
  refine ⟨rfl, rfl, ?_, ?_, ?_, ?_⟩
  · unfold student_detail_view
    rw [find?_id_append db.students (newStudentOf i db) hids']
  · exact ((List.perm_insertionSort _ _).mem_iff).mpr (by simp)
  · exact List.sorted_insertionSort _ _
  · exact List.perm_insertionSort _ _

/-- Witness for C8: adding "Ann Lee" to the one-teacher store. -/
theorem C8_valid_creation_listed_in_order_witness :
    ((18 : Int) ≤ wIn1.age) ∧
    ((StudentModelForm.errors wIn1 wDB.teachers).isEmpty = true) ∧
    (∀ t ∈ wDB.students, t.id ≠ wDB.nextStudentId) ∧
    (∀ a ∈ wDB.accounts, a.username ≠ deriveUsername wIn1.name) ∧
    ((add_student_post wIn1 wDB).1 = AddResponse.redirect "student_list" ∧
     ((add_student_post wIn1 wDB).2).students =
       wDB.students ++ [newStudentOf wIn1 wDB] ∧
     student_detail_view false (newStudentOf wIn1 wDB).id
       (add_student_post wIn1 wDB).2 =
       DetailResponse.renderStudent (newStudentOf wIn1 wDB) ∧
     newStudentOf wIn1 wDB ∈ listStudents (add_student_post wIn1 wDB).2 ∧
     List.Sorted (fun a b : Student => a.name ≤ b.name)
       (listStudents (add_student_post wIn1 wDB).2) ∧
     (listStudents (add_student_post wIn1 wDB).2).Perm
       ((add_student_post wIn1 wDB).2).students) :=
  ⟨by decide, by decide, by decide, by decide,
   C8_valid_creation_listed_in_order wIn1 wDB
     (by decide) (by decide) (by decide) (by decide)⟩

/-- C9: an unauthenticated request to `/student_list/` is redirected to the
login route, while `/student_detail/{id}/` renders an existing student with
no session at all — and its response does not depend on authentication. -/
theorem C9_list_guarded_detail_open (db : DB) (sid : Nat) (s : Student)
    (hfound : db.students.find? (fun t => t.id == sid) = some s) :
    student_list_view false db = ListResponse.redirect "login" ∧
    student_detail_view false sid db = DetailResponse.renderStudent s ∧
    student_detail_view false sid db = student_detail_view true sid db := by
  refine ⟨rfl, ?_, rfl⟩
  simp [student_detail_view, hfound]

/-- Witness for C9: student 1 in the populated store. -/
theorem C9_list_guarded_detail_open_witness :
    wDB2.students.find? (fun t => t.id == 1) = some wAnn ∧
    (student_list_view false wDB2 = ListResponse.redirect "login" ∧
     student_detail_view false 1 wDB2 = DetailResponse.renderStudent wAnn ∧
     student_detail_view false 1 wDB2 = student_detail_view true 1 wDB2) :=
  ⟨by decide, C9_list_guarded_detail_open wDB2 1 wAnn (by decide)⟩

/-- C10: the class-based route `/students/` is a second, unprotected
student-list endpoint: its response is the same whatever the requester's
authentication state, it equals what the protected `/student_list/` serves
an authenticated session (while the protected route turns the same
unauthenticated request away), and that response is the full store sorted
by name. -/
theorem C10_unprotected_list_route (db : DB) (a1 a2 : Bool) :
    studentListView_get a1 db = studentListView_get a2 db ∧
    student_list_view false db = ListResponse.redirect "login" ∧
    studentListView_get false db = student_list_view true db ∧
    (∃ l, studentListView_get false db = ListResponse.renderList l ∧
      (∀ s, s ∈ l ↔ s ∈ db.students) ∧
      List.Sorted (fun a b : Student => a.name ≤ b.name) l) := by
  refine ⟨rfl, rfl, rfl, listStudents db, rfl, ?_, List.sorted_insertionSort _ _⟩
  intro s
  exact (List.perm_insertionSort _ _).mem_iff
